import Mathlib

/-!
# Verification of `testbench/verify_testbench.py`

A shallow embedding of the testbench verification script.  Messages are
byte sequences (`List Nat`, each element `< 256`); hash digests are byte
sequences rendered as lowercase hexadecimal strings, mirroring Python's
`hashlib.sha256(...).hexdigest()` and `hashlib.sha3_256(...).hexdigest()`.
The script's per-group verification loops, summary fold and exit code are
embedded as pure functions over the list of embedded test cases.
-/

namespace Testbench

/-- Big-endian serialization of a 32-bit word into 4 bytes. -/
def w32be (x : Nat) : List Nat :=
  [x / 2 ^ 24 % 256, x / 2 ^ 16 % 256, x / 2 ^ 8 % 256, x % 256]

/-- Little-endian serialization of a 64-bit word into 8 bytes. -/
def w64le (x : Nat) : List Nat :=
  [x % 256, x / 2 ^ 8 % 256, x / 2 ^ 16 % 256, x / 2 ^ 24 % 256,
   x / 2 ^ 32 % 256, x / 2 ^ 40 % 256, x / 2 ^ 48 % 256, x / 2 ^ 56 % 256]

/-- Lowercase hex character for a nibble, as produced by `hexdigest()`. -/
def hexChar (n : Nat) : Char :=
  if n < 10 then Char.ofNat (48 + n) else Char.ofNat (87 + n)

/-- Lowercase hex rendering of a byte sequence, as a character list. -/
def bytesToHexChars (bs : List Nat) : List Char :=
  bs.flatMap fun b => [hexChar (b / 16 % 16), hexChar (b % 16)]

/-- Lowercase hex rendering of a byte sequence, as a string
(Python `hexdigest()`). -/
def bytesToHex (bs : List Nat) : String :=
  String.mk (bytesToHexChars bs)

/-- UTF-8 encoding of a string (Python `msg.encode()`); all embedded test
messages are ASCII, for which UTF-8 is the code point itself. -/
def encode (s : String) : List Nat :=
  s.data.map Char.toNat

/-! ## SHA-256 (`hashlib.sha256`) -/

/-- Right rotation of a 32-bit word. -/
def rotr32 (x n : Nat) : Nat :=
  ((x >>> n) ||| (x <<< (32 - n))) % 2 ^ 32

/-- SHA-256 round constants (decimal form of the standard table). -/
def sha256K : List Nat :=
  [1116352408, 1899447441, 3049323471, 3921009573, 961987163,
   1508970993, 2453635748, 2870763221, 3624381080, 310598401,
   607225278, 1426881987, 1925078388, 2162078206, 2614888103,
   3248222580, 3835390401, 4022224774, 264347078, 604807628,
   770255983, 1249150122, 1555081692, 1996064986, 2554220882,
   2821834349, 2952996808, 3210313671, 3336571891, 3584528711,
   113926993, 338241895, 666307205, 773529912, 1294757372,
   1396182291, 1695183700, 1986661051, 2177026350, 2456956037,
   2730485921, 2820302411, 3259730800, 3345764771, 3516065817,
   3600352804, 4094571909, 275423344, 430227734, 506948616,
   659060556, 883997877, 958139571, 1322822218, 1537002063,
   1747873779, 1955562222, 2024104815, 2227730452, 2361852424,
   2428436474, 2756734187, 3204031479, 3329325298]

/-- SHA-256 working state: eight 32-bit words. -/
structure Hash8 where
  a : Nat
  b : Nat
  c : Nat
  d : Nat
  e : Nat
  f : Nat
  g : Nat
  h : Nat
deriving DecidableEq

/-- SHA-256 initial hash value (decimal form of the standard
constants). -/
def sha256H0 : Hash8 :=
  ⟨1779033703, 3144134277, 1013904242, 2773480762,
   1359893119, 2600822924, 528734635, 1541459225⟩

def bigSigma0 (x : Nat) : Nat := rotr32 x 2 ^^^ rotr32 x 13 ^^^ rotr32 x 22
def bigSigma1 (x : Nat) : Nat := rotr32 x 6 ^^^ rotr32 x 11 ^^^ rotr32 x 25
def smallSigma0 (x : Nat) : Nat := rotr32 x 7 ^^^ rotr32 x 18 ^^^ (x >>> 3)
def smallSigma1 (x : Nat) : Nat := rotr32 x 17 ^^^ rotr32 x 19 ^^^ (x >>> 10)

/-- The 16 big-endian 32-bit words of a 64-byte block. -/
def blockWords (block : List Nat) : List Nat :=
  (List.range 16).map fun i =>
    block.getD (4 * i) 0 * 2 ^ 24 + block.getD (4 * i + 1) 0 * 2 ^ 16 +
    block.getD (4 * i + 2) 0 * 2 ^ 8 + block.getD (4 * i + 3) 0

/-- One extension step of the SHA-256 message schedule. -/
def schedStep (w : List Nat) : List Nat :=
  let n := w.length
  w ++ [(smallSigma1 (w.getD (n - 2) 0) + w.getD (n - 7) 0 +
         smallSigma0 (w.getD (n - 15) 0) + w.getD (n - 16) 0) % 2 ^ 32]

/-- Message schedule: the 16 block words extended to 64. -/
def schedule (block : List Nat) : List Nat :=
  (List.range 48).foldl (fun w _ => schedStep w) (blockWords block)

/-- One SHA-256 compression round with round constant `k` and schedule
word `w`. -/
def sha256Round (st : Hash8) (kw : Nat × Nat) : Hash8 :=
  let t1 := (st.h + bigSigma1 st.e + ((st.e &&& st.f) ^^^ ((st.e ^^^ 0xffffffff) &&& st.g))
              + kw.1 + kw.2) % 2 ^ 32
  let t2 := (bigSigma0 st.a + ((st.a &&& st.b) ^^^ (st.a &&& st.c) ^^^ (st.b &&& st.c))) % 2 ^ 32
  ⟨(t1 + t2) % 2 ^ 32, st.a, st.b, st.c, (st.d + t1) % 2 ^ 32, st.e, st.f, st.g⟩

/-- SHA-256 compression of one 64-byte block into the chaining value. -/
def sha256Compress (hv : Hash8) (block : List Nat) : Hash8 :=
  let st := (sha256K.zip (schedule block)).foldl sha256Round hv
  ⟨(hv.a + st.a) % 2 ^ 32, (hv.b + st.b) % 2 ^ 32, (hv.c + st.c) % 2 ^ 32,
   (hv.d + st.d) % 2 ^ 32, (hv.e + st.e) % 2 ^ 32, (hv.f + st.f) % 2 ^ 32,
   (hv.g + st.g) % 2 ^ 32, (hv.h + st.h) % 2 ^ 32⟩

/-- Big-endian serialization of the bit length into 8 bytes. -/
def len64be (bits : Nat) : List Nat :=
  [bits / 2 ^ 56 % 256, bits / 2 ^ 48 % 256, bits / 2 ^ 40 % 256, bits / 2 ^ 32 % 256,
   bits / 2 ^ 24 % 256, bits / 2 ^ 16 % 256, bits / 2 ^ 8 % 256, bits % 256]

/-- SHA-256 padding: `0x80`, zeros to 56 mod 64, then the 64-bit bit
length big-endian. -/
def sha256Pad (msg : List Nat) : List Nat :=
  let l := msg.length + 1
  let k := (120 - l % 64) % 64
  msg ++ [0x80] ++ List.replicate k 0 ++ len64be (8 * msg.length)

/-- Split a byte sequence into blocks of `r` bytes (fuel-driven so the
kernel can evaluate it). -/
def toBlocksAux (fuel r : Nat) (l : List Nat) : List (List Nat) :=
  match fuel, l with
  | 0, _ => []
  | _, [] => []
  | f + 1, l => l.take r :: toBlocksAux f r (l.drop r)

def toBlocks (r : Nat) (l : List Nat) : List (List Nat) :=
  toBlocksAux (l.length + 1) r l

/-- SHA-256 digest of a byte sequence, as 32 bytes. -/
def sha256 (msg : List Nat) : List Nat :=
  let hv := (toBlocks 64 (sha256Pad msg)).foldl sha256Compress sha256H0
  w32be hv.a ++ w32be hv.b ++ w32be hv.c ++ w32be hv.d ++
  w32be hv.e ++ w32be hv.f ++ w32be hv.g ++ w32be hv.h

/-- `hashlib.sha256(msg.encode()).hexdigest()`. -/
def sha256Hex (msg : String) : String :=
  bytesToHex (sha256 (encode msg))

/-! ## SHA3-256 (`hashlib.sha3_256`), Keccak-f[1600], rate 136 bytes -/

/-- Left rotation of a 64-bit lane. -/
def rotl64 (x n : Nat) : Nat :=
  ((x <<< (n % 64)) ||| (x >>> (64 - n % 64))) % 2 ^ 64

/-- Keccak round constants (decimal form of the standard table). -/
def keccakRC : List Nat :=
  [1, 32898, 9223372036854808714,
   9223372039002292224, 32907, 2147483649,
   9223372039002292353, 9223372036854808585, 138,
   136, 2147516425, 2147483658,
   2147516555, 9223372036854775947, 9223372036854808713,
   9223372036854808579, 9223372036854808578, 9223372036854775936,
   32778, 9223372039002259466, 9223372039002292353,
   9223372036854808704, 2147483649, 9223372039002292232]

/-- Keccak rho rotation offsets, lane `(x, y)` at index `x + 5 * y`,
given row by row (`y = 0` first). -/
def rhoOffsets : List Nat :=
  [0, 1, 62, 28, 27] ++
  [36, 44, 6, 55, 20] ++
  [3, 10, 43, 25, 39] ++
  [41, 45, 15, 21, 8] ++
  [18, 2, 61, 56, 14]

/-- The Keccak state: 25 lanes of 64 bits packed into one natural
number, lane `(x, y)` at bit offset `64 * (x + 5 * y)`. -/
abbrev KState := Nat

/-- Lane `i` of a packed state. -/
def laneAt (st : KState) (i : Nat) : Nat := (st >>> (64 * i)) % 2 ^ 64

def lane (st : KState) (x y : Nat) : Nat := laneAt st (x % 5 + 5 * (y % 5))

/-- Pack 25 lanes (each `< 2 ^ 64`) given by position into a state. -/
def packLanes (f : Nat → Nat) : KState :=
  (List.range 25).foldr (fun i acc => f i ||| (acc <<< 64)) 0

/-- Keccak theta step. -/
def theta (st : KState) : KState :=
  let c := fun x => lane st x 0 ^^^ lane st x 1 ^^^ lane st x 2 ^^^ lane st x 3 ^^^ lane st x 4
  let d := fun x => c ((x + 4) % 5) ^^^ rotl64 (c ((x + 1) % 5)) 1
  packLanes fun i => laneAt st i ^^^ d (i % 5)

/-- Keccak rho and pi steps combined: the new lane `(x, y)` is the old
lane `((x + 3 * y) % 5, x)` rotated by its rho offset. -/
def rhoPi (st : KState) : KState :=
  packLanes fun i =>
    let x := i % 5
    let y := i / 5
    let sx := (x + 3 * y) % 5
    let sy := x
    rotl64 (lane st sx sy) (rhoOffsets.getD (sx + 5 * sy) 0)

/-- Keccak chi step. -/
def chi (st : KState) : KState :=
  packLanes fun i =>
    let x := i % 5
    let y := i / 5
    laneAt st i ^^^
      ((lane st (x + 1) y ^^^ 0xffffffffffffffff) &&& lane st (x + 2) y)

/-- Keccak iota step for round `r`. -/
def iota (r : Nat) (st : KState) : KState :=
  st ^^^ keccakRC.getD r 0

/-- The Keccak-f[1600] permutation: 24 rounds of theta, rho/pi, chi,
iota. -/
def keccakF (st : KState) : KState :=
  (List.range 24).foldl (fun s r => iota r (chi (rhoPi (theta s)))) st

/-- A 136-byte block as 17 little-endian 64-bit lanes, packed at bit
offset `64 * i` for lane `i`. -/
def blockLanes (block : List Nat) : Nat :=
  (List.range 17).foldr
    (fun i acc =>
      ((List.range 8).foldl (fun a j => a + block.getD (8 * i + j) 0 * 2 ^ (8 * j)) 0) |||
        (acc <<< 64))
    0

/-- Absorb one 136-byte block: xor its 17 lanes into the state, then
permute. -/
def absorbBlock (st : KState) (block : List Nat) : KState :=
  keccakF (st ^^^ blockLanes block)

/-- SHA-3 multi-rate padding with domain suffix `0x06` to a multiple of
136 bytes. -/
def sha3Pad (msg : List Nat) : List Nat :=
  let q := 136 - msg.length % 136
  if q = 1 then msg ++ [0x86]
  else msg ++ [0x06] ++ List.replicate (q - 2) 0 ++ [0x80]

/-- SHA3-256 digest of a byte sequence, as 32 bytes: absorb all padded
blocks, then squeeze the first four lanes little-endian. -/
def sha3_256 (msg : List Nat) : List Nat :=
  let st := (toBlocks 136 (sha3Pad msg)).foldl absorbBlock 0
  w64le (laneAt st 0) ++ w64le (laneAt st 1) ++ w64le (laneAt st 2) ++ w64le (laneAt st 3)

/-- `hashlib.sha3_256(msg.encode()).hexdigest()`. -/
def sha3Hex (msg : String) : String :=
  bytesToHex (sha3_256 (encode msg))

/-! ## The testbench harness -/

/-- One embedded test vector: `(description, msg, expected)`. -/
structure TestCase where
  description : String
  msg : String
  expected : String
deriving DecidableEq

/-- One test case's comparison: `computed == expected`
(`verify_testbench.py` lines 45-46 and 81-82). -/
def runCase (hashHex : String → String) (tc : TestCase) : Bool :=
  hashHex tc.msg == tc.expected

/-- The report line data for one test: its 1-based number, the case and
its pass/fail status, in loop order. -/
def verifyAux (hashHex : String → String) (i : Nat) :
    List TestCase → List (Nat × TestCase × Bool)
  | [] => []
  | tc :: rest => (i, tc, runCase hashHex tc) :: verifyAux hashHex (i + 1) rest

/-- The ordered result sequence of one verification group
(`enumerate(tests, 1)` with one result per case). -/
def verifyGroup (hashHex : String → String) (tests : List TestCase) :
    List (Nat × TestCase × Bool) :=
  verifyAux hashHex 1 tests

/-- The `(passed, failed)` counters accumulated over the result
sequence. -/
def countPF : List (Nat × TestCase × Bool) → Nat × Nat
  | [] => (0, 0)
  | r :: rest =>
    let pf := countPF rest
    if r.2.2 then (pf.1 + 1, pf.2) else (pf.1, pf.2 + 1)

/-- `verify_sha256(tests)`: the returned `(passed, failed)` pair. -/
def verify_sha256 (tests : List TestCase) : Nat × Nat :=
  countPF (verifyGroup sha256Hex tests)

/-- `verify_sha3(tests)`: the returned `(passed, failed)` pair. -/
def verify_sha3 (tests : List TestCase) : Nat × Nat :=
  countPF (verifyGroup sha3Hex tests)

/-- The display form of a message in a report line: verbatim when at
most 40 characters, else the first 37 characters followed by `...`. -/
def display_msg (m : List Char) : List Char :=
  if m.length ≤ 40 then m else m.take 37 ++ ['.', '.', '.']

/-- The embedded SHA-256 test vectors (`sha256_tests` in `main`). -/
def sha256_tests : List TestCase :=
  [⟨"Empty string", "",
    "e3b0c44298fc1c149afbf4c8996fb92427ae41e4649b934ca495991b7852b855"⟩,
   ⟨"\x27abc\x27", "abc",
    "ba7816bf8f01cfea414140de5dae2223b00361a396177a9cb410ff61f20015ad"⟩,
   ⟨"\x27hello\x27", "hello",
    "2cf24dba5fb0a30e26e83b2ac5b9e29e1b161e5c1fa7425e73043362938b9824"⟩,
   ⟨"Block of zeros with length 0", "",
    "e3b0c44298fc1c149afbf4c8996fb92427ae41e4649b934ca495991b7852b855"⟩,
   ⟨"\x27test\x27", "test",
    "9f86d081884c7d659a2feaa0c55ad015a3bf4f1b2b0b822cd15d6c15b0f00a08"⟩,
   ⟨"Back-to-back \x27abc\x27 hashes #1", "abc",
    "ba7816bf8f01cfea414140de5dae2223b00361a396177a9cb410ff61f20015ad"⟩,
   ⟨"Back-to-back \x27abc\x27 hashes #2", "abc",
    "ba7816bf8f01cfea414140de5dae2223b00361a396177a9cb410ff61f20015ad"⟩]

/-- The embedded SHA3-256 test vectors (`sha3_tests` in `main`). -/
def sha3_tests : List TestCase :=
  [⟨"Empty string", "",
    "a7ffc6f8bf1ed76651c14756a061d662f580ff4de43b49fa82d80a4b80f8434a"⟩,
   ⟨"\x27abc\x27", "abc",
    "3a985da74fe225b2045c172d6bd390bd855f086e3e9d525b46bfe24511431532"⟩,
   ⟨"\x27abcdbcdecdefdefgefghfghighijhijkijkljklmklmnlmnomnopnopq\x27",
    "abcdbcdecdefdefgefghfghighijhijkijkljklmklmnlmnomnopnopq",
    "41c0dba2a9d6240849100376a8235e2c82e1b9998a999e21db32dd97496d3376"⟩,
   ⟨"\x27a\x27", "a",
    "80084bf2fba02475726feb2cab2d8215eab14bc6bdd8bfb2c8151257032ecd8b"⟩,
   ⟨"\x27The quick brown fox jumps over the lazy dog\x27",
    "The quick brown fox jumps over the lazy dog",
    "69070dda01975c8c120c3aada1b282394e7f032fa9cf32f4cb2259a0897dfc04"⟩,
   ⟨"Back-to-back \x27abc\x27 hashes #1", "abc",
    "3a985da74fe225b2045c172d6bd390bd855f086e3e9d525b46bfe24511431532"⟩,
   ⟨"Back-to-back \x27abc\x27 hashes #2", "abc",
    "3a985da74fe225b2045c172d6bd390bd855f086e3e9d525b46bfe24511431532"⟩,
   ⟨"Block of zeros", "",
    "a7ffc6f8bf1ed76651c14756a061d662f580ff4de43b49fa82d80a4b80f8434a"⟩]

/-- The summary computed at the end of `main`, and the value `main`
returns as the process exit status. -/
structure Summary where
  sha256_passed : Nat
  sha256_failed : Nat
  sha3_passed : Nat
  sha3_failed : Nat
  total_passed : Nat
  total_failed : Nat
  total_tests : Nat
  exit_code : Nat
deriving DecidableEq

/-- `main` run on the given vector tables: both groups verified, counts
summed, exit code 0 when no test failed and 1 otherwise. -/
def mainRun (t256 t3 : List TestCase) : Summary :=
  let pf256 := verify_sha256 t256
  let pf3 := verify_sha3 t3
  let total_passed := pf256.1 + pf3.1
  let total_failed := pf256.2 + pf3.2
  let total_tests := total_passed + total_failed
  ⟨pf256.1, pf256.2, pf3.1, pf3.2, total_passed, total_failed, total_tests,
   if total_failed = 0 then 0 else 1⟩

/-- The process exit status of the script on its embedded tables
(`sys.exit(main())`). -/
def mainExit : Nat :=
  (mainRun sha256_tests sha3_tests).exit_code

/-- ASCII lowercasing of one character, for stating case-insensitive
comparison. -/
def asciiLower (c : Char) : Char :=
  if 65 ≤ c.toNat ∧ c.toNat ≤ 90 then Char.ofNat (c.toNat + 32) else c

/-- Two strings are equal up to ASCII letter case. -/
def eqUpToCase (s t : String) : Bool :=
  s.data.map asciiLower == t.data.map asciiLower

/-- A lowercase hex character: `0`-`9` or `a`-`f`. -/
def isLowerHex (c : Char) : Bool :=
  (48 ≤ c.toNat && c.toNat ≤ 57) || (97 ≤ c.toNat && c.toNat ≤ 102)

/-- The dummy test case used as `getD` default. -/
def dummyTC : TestCase := ⟨"", "", ""⟩

/-! ## General lemmas about the harness -/

lemma countPF_fst_add_snd (l : List (Nat × TestCase × Bool)) :
    (countPF l).1 + (countPF l).2 = l.length := by
  induction l with
  | nil => rfl
  | cons r rest ih =>
    simp only [countPF, List.length_cons]
    cases hr : r.2.2 <;> simp only [if_pos, if_neg, Bool.false_eq_true,
      not_false_iff, ite_true, ite_false] <;> omega

lemma countPF_snd_zero (l : List (Nat × TestCase × Bool)) :
    (countPF l).2 = 0 ↔ (l.all fun r => r.2.2) = true := by
  induction l with
  | nil => simp [countPF]
  | cons r rest ih =>
    simp only [countPF, List.all_cons, Bool.and_eq_true]
    cases hr : r.2.2 <;> simp [hr, ih]

lemma verifyAux_length (f : String → String) (l : List TestCase) (i : Nat) :
    (verifyAux f i l).length = l.length := by
  induction l generalizing i with
  | nil => rfl
  | cons tc rest ih => simp [verifyAux, ih]

lemma verifyAux_getD (f : String → String) (l : List TestCase) :
    ∀ i j, j < l.length →
      (verifyAux f i l).getD j (0, dummyTC, false) =
        (i + j, l.getD j dummyTC, runCase f (l.getD j dummyTC)) := by
  induction l with
  | nil => intro i j hj; simp at hj
  | cons tc rest ih =>
    intro i j hj
    cases j with
    | zero => simp [verifyAux]
    | succ j =>
      have hj' : j < rest.length := by simpa using hj
      simp only [verifyAux, List.getD_cons_succ]
      rw [ih (i + 1) j hj']
      ring_nf

lemma bytesToHexChars_length (bs : List Nat) :
    (bytesToHexChars bs).length = 2 * bs.length := by
  induction bs with
  | nil => rfl
  | cons b rest ih => simp [bytesToHexChars] at ih ⊢; omega

lemma sha256_length (msg : List Nat) : (sha256 msg).length = 32 := by
  simp [sha256, w32be]

lemma sha3_256_length (msg : List Nat) : (sha3_256 msg).length = 32 := by
  simp [sha3_256, w64le]

lemma isLowerHex_hexChar (n : Nat) (hn : n < 16) : isLowerHex (hexChar n) = true := by
  interval_cases n <;> decide

lemma bytesToHexChars_all_lower (bs : List Nat) :
    ((bytesToHexChars bs).all isLowerHex) = true := by
  induction bs with
  | nil => rfl
  | cons b rest ih =>
    simp only [bytesToHexChars, List.flatMap_cons, List.all_append, List.all_cons,
      List.all_nil, Bool.and_eq_true] at ih ⊢
    refine ⟨⟨isLowerHex_hexChar _ (Nat.mod_lt _ (by omega)),
      isLowerHex_hexChar _ (Nat.mod_lt _ (by omega)), trivial⟩, ih⟩

/-! ## The claims -/

set_option maxRecDepth 1000000
set_option maxHeartbeats 4000000

/-- C1: running `main` over the full embedded vector table (7 SHA-256
cases, 8 SHA3-256 cases) yields 0 failed and exit status 0, and every
embedded `(description, msg, expected)` triple has its computed hex
digest equal to `expected`. -/
theorem C1_all_vectors_pass :
    mainRun sha256_tests sha3_tests = ⟨7, 0, 8, 0, 15, 0, 15, 0⟩ ∧
    mainExit = 0 ∧
    (sha256_tests.all fun tc => sha256Hex tc.msg == tc.expected) = true ∧
    (sha3_tests.all fun tc => sha3Hex tc.msg == tc.expected) = true := by
  decide

/-- C2: the exit status is 0 exactly when no test failed, is 1 when at
least one failed, and is never any other value; and no failure means
every result in both groups passed. -/
theorem C2_exit_status (t256 t3 : List TestCase) :
    ((mainRun t256 t3).exit_code = 0 ∨ (mainRun t256 t3).exit_code = 1) ∧
    ((mainRun t256 t3).exit_code = 0 ↔ (mainRun t256 t3).total_failed = 0) ∧
    ((mainRun t256 t3).total_failed = 0 ↔
      ((verifyGroup sha256Hex t256 ++ verifyGroup sha3Hex t3).all fun r => r.2.2) = true) := by
  refine ⟨?_, ?_, ?_⟩
  · simp only [mainRun]
    by_cases h : (verify_sha256 t256).2 + (verify_sha3 t3).2 = 0 <;> simp [h]
  · simp only [mainRun]
    by_cases h : (verify_sha256 t256).2 + (verify_sha3 t3).2 = 0 <;> simp [h]
  · simp only [mainRun, verify_sha256, verify_sha3, List.all_append, Bool.and_eq_true,
      Nat.add_eq_zero, countPF_snd_zero]

theorem C2_exit_status_witness :
    ((mainRun sha256_tests sha3_tests).exit_code = 0 ∨
      (mainRun sha256_tests sha3_tests).exit_code = 1) ∧
    ((mainRun sha256_tests sha3_tests).exit_code = 0 ↔
      (mainRun sha256_tests sha3_tests).total_failed = 0) :=
  ⟨(C2_exit_status sha256_tests sha3_tests).1, (C2_exit_status sha256_tests sha3_tests).2.1⟩

/-- C3: a mismatch never aborts a verification group: the result
sequence has one entry per input case, and the entry at position `j`
reports case `j` with number `j + 1`, in input order. -/
theorem C3_order_preserved (f : String → String) (tests : List TestCase) :
    (verifyGroup f tests).length = tests.length ∧
    ∀ j, j < tests.length →
      (verifyGroup f tests).getD j (0, dummyTC, false) =
        (j + 1, tests.getD j dummyTC, runCase f (tests.getD j dummyTC)) := by
  refine ⟨verifyAux_length f tests 1, fun j hj => ?_⟩
  simpa [Nat.add_comm] using verifyAux_getD f tests 1 j hj

theorem C3_order_preserved_witness :
    (verifyGroup sha256Hex sha256_tests).length = sha256_tests.length ∧
    (verifyGroup sha256Hex sha256_tests).getD 2 (0, dummyTC, false) =
      (3, sha256_tests.getD 2 dummyTC, runCase sha256Hex (sha256_tests.getD 2 dummyTC)) :=
  ⟨(C3_order_preserved sha256Hex sha256_tests).1,
   (C3_order_preserved sha256Hex sha256_tests).2 2 (by decide)⟩

/-- C4 counterexample: the claim that an expected value equal to the
computed digest up to ASCII case is counted as a pass is false: the
uppercase form of the correct SHA-256 digest of `abc` is equal to the
computed digest up to case, yet the comparison fails. -/
theorem C4_counterexample :
    eqUpToCase "BA7816BF8F01CFEA414140DE5DAE2223B00361A396177A9CB410FF61F20015AD"
      (sha256Hex "abc") = true ∧
    runCase sha256Hex
      ⟨"uppercase expected", "abc",
       "BA7816BF8F01CFEA414140DE5DAE2223B00361A396177A9CB410FF61F20015AD"⟩ = false := by
  decide

/-- C4 amended: each test case is compared by exact string equality
between the computed hex digest and `expected` (no case normalization);
the computed digest itself is always lowercase hex. -/
theorem C4_exact_comparison :
    (∀ (f : String → String) (tc : TestCase), runCase f tc = true ↔ f tc.msg = tc.expected) ∧
    (∀ m : String, ((sha256Hex m).data.all isLowerHex) = true ∧
      ((sha3Hex m).data.all isLowerHex) = true) := by
  refine ⟨fun f tc => ?_, fun m => ⟨?_, ?_⟩⟩
  · simp [runCase]
  · exact bytesToHexChars_all_lower (sha256 (encode m))
  · exact bytesToHexChars_all_lower (sha3_256 (encode m))

theorem C4_exact_comparison_witness :
    (runCase sha256Hex dummyTC = true ↔ sha256Hex dummyTC.msg = dummyTC.expected) ∧
    ((sha256Hex "abc").data.all isLowerHex) = true :=
  ⟨(C4_exact_comparison.1 sha256Hex dummyTC), (C4_exact_comparison.2 "abc").1⟩

/-- C5: digest computation is deterministic: recomputing on the same
message gives the same digest, and each back-to-back repeated pair in
the embedded tables has equal messages and equal comparison outcomes. -/
theorem C5_determinism :
    (∀ m : String, sha256Hex m = sha256Hex m ∧ sha3Hex m = sha3Hex m) ∧
    (sha256_tests.getD 5 dummyTC).msg = (sha256_tests.getD 6 dummyTC).msg ∧
    runCase sha256Hex (sha256_tests.getD 5 dummyTC) =
      runCase sha256Hex (sha256_tests.getD 6 dummyTC) ∧
    (sha3_tests.getD 5 dummyTC).msg = (sha3_tests.getD 6 dummyTC).msg ∧
    runCase sha3Hex (sha3_tests.getD 5 dummyTC) =
      runCase sha3Hex (sha3_tests.getD 6 dummyTC) :=
  ⟨fun _ => ⟨rfl, rfl⟩, rfl, rfl, rfl, rfl⟩

/-- C6: the digest of the empty message is the standardized empty-input
constant for each algorithm, and the empty-string cases of the embedded
tables pass. -/
theorem C6_empty_digests :
    sha256Hex "" = "e3b0c44298fc1c149afbf4c8996fb92427ae41e4649b934ca495991b7852b855" ∧
    sha3Hex "" = "a7ffc6f8bf1ed76651c14756a061d662f580ff4de43b49fa82d80a4b80f8434a" ∧
    runCase sha256Hex (sha256_tests.getD 0 dummyTC) = true ∧
    runCase sha256Hex (sha256_tests.getD 3 dummyTC) = true ∧
    runCase sha3Hex (sha3_tests.getD 0 dummyTC) = true ∧
    runCase sha3Hex (sha3_tests.getD 7 dummyTC) = true := by
  decide

/-- C7: the summary is an exact fold over the per-test results: per
group `passed + failed` is the group size, and the overall totals are
the sums of the groups. -/
theorem C7_summary_fold (t256 t3 : List TestCase) :
    (mainRun t256 t3).sha256_passed + (mainRun t256 t3).sha256_failed = t256.length ∧
    (mainRun t256 t3).sha3_passed + (mainRun t256 t3).sha3_failed = t3.length ∧
    (mainRun t256 t3).total_passed =
      (mainRun t256 t3).sha256_passed + (mainRun t256 t3).sha3_passed ∧
    (mainRun t256 t3).total_failed =
      (mainRun t256 t3).sha256_failed + (mainRun t256 t3).sha3_failed ∧
    (mainRun t256 t3).total_tests =
      (mainRun t256 t3).total_passed + (mainRun t256 t3).total_failed := by
  have h1 := countPF_fst_add_snd (verifyGroup sha256Hex t256)
  have h2 := countPF_fst_add_snd (verifyGroup sha3Hex t3)
  simp only [verifyGroup, verifyAux_length] at h1 h2
  exact ⟨h1, h2, rfl, rfl, rfl⟩

theorem C7_summary_fold_witness :
    (mainRun sha256_tests sha3_tests).sha256_passed +
      (mainRun sha256_tests sha3_tests).sha256_failed = sha256_tests.length ∧
    (mainRun sha256_tests sha3_tests).total_tests =
      (mainRun sha256_tests sha3_tests).total_passed +
        (mainRun sha256_tests sha3_tests).total_failed :=
  ⟨(C7_summary_fold sha256_tests sha3_tests).1,
   (C7_summary_fold sha256_tests sha3_tests).2.2.2.2⟩

/-- C8: no-collision spot check: the SHA-256 digests of `abc` and
`hello` differ, and so do their expected values in the embedded
table. -/
theorem C8_no_collision :
    sha256Hex "abc" ≠ sha256Hex "hello" ∧
    (sha256_tests.getD 1 dummyTC).expected ≠ (sha256_tests.getD 2 dummyTC).expected := by
  decide

/-- C9: every computed digest is 32 bytes, hence 64 hex characters,
regardless of input; and every expected string in the embedded tables
is exactly 64 lowercase hex characters. -/
theorem C9_digest_length :
    (∀ msg : List Nat, (sha256 msg).length = 32 ∧ (sha3_256 msg).length = 32) ∧
    (∀ m : String, (sha256Hex m).length = 64 ∧ (sha3Hex m).length = 64) ∧
    ((sha256_tests ++ sha3_tests).all fun tc =>
      tc.expected.length == 64 && tc.expected.data.all isLowerHex) = true := by
  refine ⟨fun msg => ⟨sha256_length msg, sha3_256_length msg⟩, fun m => ⟨?_, ?_⟩, by decide⟩
  · show (bytesToHexChars (sha256 (encode m))).length = 64
    rw [bytesToHexChars_length, sha256_length]
  · show (bytesToHexChars (sha3_256 (encode m))).length = 64
    rw [bytesToHexChars_length, sha3_256_length]

/-- C10: the displayed form of a message is the message itself when it
has at most 40 characters, else its first 37 characters followed by
`...`; it never exceeds 40 characters and its first 37 characters are
those of the input. -/
theorem C10_display_truncation (m : List Char) :
    (display_msg m).length ≤ 40 ∧
    (m.length ≤ 40 → display_msg m = m) ∧
    (40 < m.length → display_msg m = m.take 37 ++ ['.', '.', '.']) ∧
    (display_msg m).take 37 = m.take 37 := by
  by_cases h : m.length ≤ 40
  · refine ⟨by simp [display_msg, h], fun _ => by simp [display_msg, h],
      fun h' => absurd h' (by omega), by simp [display_msg, h]⟩
  · refine ⟨?_, fun hc => absurd hc h, fun _ => by simp [display_msg, h], ?_⟩
    · simp only [display_msg, if_neg h, List.length_append, List.length_take]
      simp
    · simp only [display_msg, if_neg h]
      rw [List.take_append_of_le_length (by simp [List.length_take]; omega), List.take_take]
      simp

theorem C10_display_truncation_witness :
    display_msg (List.replicate 45 'x') =
      (List.replicate 45 'x').take 37 ++ ['.', '.', '.'] ∧
    (display_msg (List.replicate 45 'x')).length ≤ 40 :=
  ⟨(C10_display_truncation (List.replicate 45 'x')).2.2.1 (by decide),
   (C10_display_truncation (List.replicate 45 'x')).1⟩

end Testbench
